import Mathlib

set_option autoImplicit false

deriving instance DecidableEq for Except

/- Verification of the pyfilemail client-side session and configuration layer.
The development shallowly embeds the two source modules:
`filemail/config.py` (the `Config` settings store) in namespace `Filemail`, and
`pyfilemail/users.py` (the `User` session object) in namespace `Pyfilemail`.
Python dictionaries become association lists, the requests cookie jar becomes an
explicit association list with the set-to-None-removes semantics, the HTTP
transport becomes an explicit `Request → Response` collaborator parameter, and
raised exceptions become `Except` error values.  Each operation returns its
result together with the object state at return or raise time and the list of
network requests it issued. -/

/-- Scalar Python values appearing in config dictionaries and request
parameters: strings, integers, booleans and `None`. -/
inductive PyVal where
  | vstr (s : String)
  | vint (n : Int)
  | vbool (b : Bool)
  | vnone
deriving DecidableEq, Repr

/-- Lookup in a Python dict modelled as an association list. -/
def dfind : List (String × PyVal) → String → Option PyVal
  | [], _ => none
  | (k0, v) :: rest, k => if k0 = k then some v else dfind rest k

/-- Python `d.get(key)`: the stored value, or `None` when the key is absent. -/
def dget (d : List (String × PyVal)) (k : String) : PyVal :=
  match dfind d k with
  | some v => v
  | none => PyVal.vnone

/-- Python `d[key] = value`: overwrite in place or append. -/
def dset : List (String × PyVal) → String → PyVal → List (String × PyVal)
  | [], k, v => [(k, v)]
  | (k0, v0) :: rest, k, v =>
    if k0 = k then (k, v) :: rest else (k0, v0) :: dset rest k v

/-- Python `d.update(new)`: merge every entry of `new` into `d`. -/
def dupdate (d new : List (String × PyVal)) : List (String × PyVal) :=
  new.foldl (fun acc kv => dset acc kv.1 kv.2) d

theorem dfind_dset (d : List (String × PyVal)) (k : String) (v : PyVal) :
    dfind (dset d k v) k = some v := by
  induction d with
  | nil => simp [dset, dfind]
  | cons kv rest ih =>
    by_cases h : kv.1 = k
    · simp [dset, h, dfind]
    · simp [dset, h, dfind, ih]

theorem dget_dset (d : List (String × PyVal)) (k : String) (v : PyVal) :
    dget (dset d k v) k = v := by
  simp [dget, dfind_dset]

namespace Filemail

/-- Errors raised by the config module: `FMConfigError`, `AttributeError` and
`UnboundLocalError` (the latter two are built-in Python exceptions). -/
inductive CfgError where
  | fmconfig (msg : String)
  | attrError (msg : String)
  | unboundLocal (msg : String)
deriving DecidableEq, Repr

/-- Keys that must never be set to `None` (`Config.required_keys`). -/
def required_keys : List String := ["apikey", "password", "username"]

/-- The enumerated optional key allow-list (`Config.optional_keys`). -/
def optional_keys : List String :=
  ["country", "created", "defaultconfirmation", "defaultdays",
   "defaultdownloads", "defaultnotify", "defaultsubject", "email",
   "logintoken", "maxdays", "maxdownloads", "maxtransfersize",
   "membershipname", "name", "newsletter", "signature", "source",
   "subscription"]

/-- `Config.valid_keys = required_keys + optional_keys`. -/
def valid_keys : List String := required_keys ++ optional_keys

/-- The attributes `Config.__init__` assigns: the `_config` dict and the cached
`config_file` path.  The key lists are constants and live as plain definitions.
Note that `__init__` assigns no `_username` attribute. -/
structure Config where
  _config : List (String × PyVal)
  config_file : Option String
deriving DecidableEq, Repr

/-- `Config.validKey`: membership in the valid-key list. -/
def validKey (key : String) : Bool := valid_keys.contains key

/-- `Config.set`: validates the key, rejects `None` for required keys, then
stores the value.  Unknown keys raise `AttributeError`, a required key set to
`None` raises `FMConfigError`. -/
def Config.set (c : Config) (key : String) (value : PyVal) : Except CfgError Config :=
  if validKey key then
    if required_keys.contains key then
      if value = PyVal.vnone then
        .error (.fmconfig ("Required key, \"" ++ key ++ "\", can\x27t be None"))
      else
        .ok { c with _config := dset c._config key value }
    else
      .ok { c with _config := dset c._config key value }
  else
    .error (.attrError ("Non valid config key, \"" ++ key ++ "\" passed"))

/-- `Config.get`: the stored value, or `None` when the key is not in the
config dict. -/
def Config.get (c : Config) (key : String) : PyVal :=
  match dfind c._config key with
  | some v => v
  | none => PyVal.vnone

/-- `Config.update`: applies `set` for every entry in iteration order.  The
second component is the object state at return or raise time: when a `set`
fails mid-batch, entries already applied stay applied (the Python object was
mutated in place) and the exception propagates. -/
def Config.update (c : Config) : List (String × PyVal) → Except CfgError Unit × Config
  | [] => (.ok (), c)
  | (k, v) :: rest =>
    match c.set k v with
    | .ok c2 => Config.update c2 rest
    | .error e => (.error e, c)

/-- Filesystem and environment collaborators of `_locateConfig` and `save`:
the `FILEMAIL_CONFIG_FILE` environment variable, the `os.path.isfile`
predicate, the home directory and the installation directory
(`os.path.dirname` of the directory holding the module). -/
structure Env where
  envConfigFile : Option String
  isfile : String → Bool
  homeDir : String
  installDir : String

/-- Characters of the last path component: `baseChars acc cs` scans `cs`,
resetting the accumulator at every slash. -/
def baseChars : List Char → List Char → List Char
  | acc, [] => acc.reverse
  | acc, c :: rest =>
    if c = '/' then baseChars [] rest else baseChars (c :: acc) rest

/-- `os.path.basename`: the component after the last slash. -/
def basename (p : String) : String := String.mk (baseChars [] p.data)

theorem baseChars_append (r : List Char) (l : List Char) (acc : List Char) :
    baseChars acc (l ++ '/' :: r) = baseChars [] r := by
  induction l generalizing acc with
  | nil => simp [baseChars]
  | cons c cs ih =>
    by_cases h : c = '/'
    · simp [baseChars, h, ih]
    · simp [baseChars, h, ih]

theorem basename_cfg (d : String) : basename (d ++ "/filemail.cfg") = "filemail.cfg" := by
  have h1 : (d ++ "/filemail.cfg").data = d.data ++ '/' :: "filemail.cfg".data := by
    cases d
    rfl
  rw [basename, h1, baseChars_append]
  rfl

/-- `Config._locateConfig`: returns the cached path when one is stored;
otherwise walks the candidate locations in priority order (environment
variable with empty-string default, installation-relative `filemail.cfg`,
home-directory `filemail.cfg`) and returns the first existing file whose
basename is `filemail.cfg`, caching it; `None` when no candidate passes. -/
def Config.locateConfig (c : Config) (e : Env) : Config × Option String :=
  match c.config_file with
  | some p => (c, some p)
  | none =>
    let locations := [e.envConfigFile.getD "",
                      e.installDir ++ "/filemail.cfg",
                      e.homeDir ++ "/filemail.cfg"]
    match locations.find? (fun p => e.isfile p && basename p == "filemail.cfg") with
    | some p => ({ c with config_file := some p }, some p)
    | none => (c, none)

/-- `Config.__init__`: empty dict, `set("username", ...)`, bulk `update` of
the keyword arguments, then `checkForConfigfile` which stores the
`_locateConfig` result. -/
def Config.init (username : String) (kwargs : List (String × PyVal)) (e : Env) :
    Except CfgError Config :=
  let c0 : Config := { _config := [], config_file := none }
  match c0.set "username" (PyVal.vstr username) with
  | .error err => .error err
  | .ok c1 =>
    match Config.update c1 kwargs with
    | (.error err, _) => .error err
    | (.ok _, c2) =>
      let r := Config.locateConfig c2 e
      .ok { r.1 with config_file := r.2 }

/-- Embedding of `Config.save`.  In the source the local variable
`config_file` is assigned only inside `if self.config_file is None:`; when a
path is already cached the very next line reads the unassigned local and
Python raises `UnboundLocalError`.  On the other branch, after resolving a
target path the source calls `config.add_section(self._username)`, but
`__init__` never assigns an attribute `_username` (the username is stored
inside `self._config`), so the attribute lookup raises `AttributeError`
before anything is serialized or written.  Either way `save` raises before
any write; the second component is the object state at raise time
(`_locateConfig` may have cached a discovered path). -/
def Config.save (c : Config) (e : Env) : Except CfgError Config × Config :=
  match c.config_file with
  | some _ =>
    (.error (.unboundLocal "local variable \x27config_file\x27 referenced before assignment"), c)
  | none =>
    let r := Config.locateConfig c e
    let _configFilePath : String :=
      match r.2 with
      | none => e.homeDir ++ "/filemail.cfg"
      | some p => p
    (.error (.attrError "Config instance has no attribute \x27_username\x27"), r.1)

/-- An empty store, as `__init__` builds before setting the username. -/
def cEmpty : Config := { _config := [], config_file := none }

/-- C5: a key outside the schema always fails with the invalid-key error; a
required key set to `None` always fails with `FMConfigError`; a schema-valid
key with a non-`None` value is stored and `get` returns it. -/
theorem C5_set_get_schema (c : Config) (k : String) (v : PyVal) :
    (validKey k = false →
      c.set k v = .error (.attrError ("Non valid config key, \"" ++ k ++ "\" passed"))) ∧
    (required_keys.contains k = true →
      c.set k PyVal.vnone =
        .error (.fmconfig ("Required key, \"" ++ k ++ "\", can\x27t be None"))) ∧
    (validKey k = true → v ≠ PyVal.vnone →
      ∃ c2, c.set k v = .ok c2 ∧ c2.get k = v) := by
  refine ⟨?_, ?_, ?_⟩
  · intro h
    simp [Config.set, h]
  · intro h
    have hmem : k ∈ required_keys := by simpa using h
    have hv : validKey k = true := by
      simp [validKey, valid_keys, List.mem_append]
      exact Or.inl hmem
    simp [Config.set, hv, hmem]
  · intro hv hnn
    by_cases hr : k ∈ required_keys
    · refine ⟨{ c with _config := dset c._config k v }, ?_, ?_⟩
      · simp [Config.set, hv, hr, hnn]
      · simp [Config.get, dfind_dset]
    · refine ⟨{ c with _config := dset c._config k v }, ?_, ?_⟩
      · simp [Config.set, hv, hr]
      · simp [Config.get, dfind_dset]

/-- Witness for C5 at concrete inputs: an unknown key, a required key set to
`None`, and a required key set to a string. -/
theorem C5_witness :
    Config.set cEmpty "badkey" (PyVal.vstr "x") =
      .error (.attrError ("Non valid config key, \"" ++ "badkey" ++ "\" passed")) ∧
    Config.set cEmpty "apikey" PyVal.vnone =
      .error (.fmconfig ("Required key, \"" ++ "apikey" ++ "\", can\x27t be None")) ∧
    ∃ c2, Config.set cEmpty "apikey" (PyVal.vstr "X") = .ok c2 ∧
      c2.get "apikey" = PyVal.vstr "X" :=
  ⟨(C5_set_get_schema cEmpty "badkey" (PyVal.vstr "x")).1 (by decide),
   (C5_set_get_schema cEmpty "apikey" PyVal.vnone).2.1 (by decide),
   (C5_set_get_schema cEmpty "apikey" (PyVal.vstr "X")).2.2 (by decide) (by decide)⟩

/-- C8: `update` applies `set` entry by entry and is not transactional: when
`set` fails partway through the batch, the entries applied before the failure
remain applied (state `c1`) and the failing error propagates; the remaining
entries are never attempted. -/
theorem C8_update_not_transactional (pre : List (String × PyVal)) (c c1 : Config)
    (k : String) (v : PyVal) (post : List (String × PyVal)) (err : CfgError)
    (hpre : Config.update c pre = (.ok (), c1))
    (hfail : c1.set k v = .error err) :
    Config.update c (pre ++ (k, v) :: post) = (.error err, c1) := by
  induction pre generalizing c with
  | nil =>
    simp only [Config.update, Prod.mk.injEq, true_and] at hpre
    subst hpre
    simp [Config.update, hfail]
  | cons kv rest ih =>
    obtain ⟨k0, v0⟩ := kv
    cases hset : c.set k0 v0 with
    | ok c2 =>
      have h2 : Config.update c2 rest = (.ok (), c1) := by
        simpa [Config.update, hset] using hpre
      simpa [Config.update, hset] using ih c2 h2
    | error e =>
      simp [Config.update, hset] at hpre

/-- The state after the first entry of the C8 witness batch is applied. -/
def cPre8 : Config := { _config := [("apikey", PyVal.vstr "X")], config_file := none }

/-- Witness for C8: a three-entry batch whose middle key is outside the
schema; the first entry stays applied, the third is never attempted. -/
theorem C8_witness :
    Config.update cEmpty
        ([("apikey", PyVal.vstr "X")] ++ ("bogus", PyVal.vstr "y") :: [("email", PyVal.vstr "z")]) =
      (.error (.attrError ("Non valid config key, \"" ++ "bogus" ++ "\" passed")), cPre8) :=
  C8_update_not_transactional [("apikey", PyVal.vstr "X")] cEmpty cPre8 "bogus"
    (PyVal.vstr "y") [("email", PyVal.vstr "z")]
    (.attrError ("Non valid config key, \"" ++ "bogus" ++ "\" passed"))
    (by rfl) (by rfl)

/-- C6: with no cached path, `_locateConfig` returns the first candidate, in
the strict order environment variable, installation-relative file, home file,
that exists and is named `filemail.cfg`; an existing environment-variable path
with a different basename falls through to the later candidates, and the
result is `None` when no candidate passes. -/
theorem C6_locate_priority (c : Config) (e : Env) (h : c.config_file = none) :
    ((e.isfile (e.envConfigFile.getD "") &&
        (basename (e.envConfigFile.getD "") == "filemail.cfg")) = true →
      (c.locateConfig e).2 = some (e.envConfigFile.getD "")) ∧
    ((e.isfile (e.envConfigFile.getD "") &&
        (basename (e.envConfigFile.getD "") == "filemail.cfg")) = false →
      e.isfile (e.installDir ++ "/filemail.cfg") = true →
      (c.locateConfig e).2 = some (e.installDir ++ "/filemail.cfg")) ∧
    ((e.isfile (e.envConfigFile.getD "") &&
        (basename (e.envConfigFile.getD "") == "filemail.cfg")) = false →
      e.isfile (e.installDir ++ "/filemail.cfg") = false →
      e.isfile (e.homeDir ++ "/filemail.cfg") = true →
      (c.locateConfig e).2 = some (e.homeDir ++ "/filemail.cfg")) ∧
    ((e.isfile (e.envConfigFile.getD "") &&
        (basename (e.envConfigFile.getD "") == "filemail.cfg")) = false →
      e.isfile (e.installDir ++ "/filemail.cfg") = false →
      e.isfile (e.homeDir ++ "/filemail.cfg") = false →
      (c.locateConfig e).2 = none) := by
  have hb2 : (basename (e.installDir ++ "/filemail.cfg") == "filemail.cfg") = true := by
    simp [basename_cfg]
  have hb3 : (basename (e.homeDir ++ "/filemail.cfg") == "filemail.cfg") = true := by
    simp [basename_cfg]
  refine ⟨?_, ?_, ?_, ?_⟩
  · intro h1
    simp [Config.locateConfig, h, List.find?, h1]
  · intro h1 h2
    simp [Config.locateConfig, h, List.find?, h1, h2, hb2]
  · intro h1 h2 h3
    simp [Config.locateConfig, h, List.find?, h1, h2, h3, hb2, hb3]
  · intro h1 h2 h3
    simp [Config.locateConfig, h, List.find?, h1, h2, h3, hb2, hb3]

/-- Environment for the C6 witness: the environment variable points at an
existing file that is not named `filemail.cfg`, the installation-relative
file is missing, and the home-directory config exists. -/
def envW6 : Env :=
  { envConfigFile := some "/tmp/creds.txt",
    isfile := fun p => p == "/tmp/creds.txt" || p == "/home/u/filemail.cfg",
    homeDir := "/home/u",
    installDir := "/opt/app" }

/-- Witness for C6: the wrongly named environment-variable file is skipped and
the search falls through to the home-directory config. -/
theorem C6_witness :
    (Config.locateConfig cEmpty envW6).2 = some ("/home/u" ++ "/filemail.cfg") :=
  (C6_locate_priority cEmpty envW6 rfl).2.2.1 (by decide) (by decide) (by decide)

/-- Environment for the C2 scenario: no config file anywhere. -/
def envNoFiles : Env :=
  { envConfigFile := none, isfile := fun _ => false,
    homeDir := "/home/alice", installDir := "/opt/app" }

/-- The round-trip scenario store: `Config("alice")`, `set("apikey","X")`,
`set("password","p")`. -/
def aliceStore : Except CfgError Config :=
  match Config.init "alice" [] envNoFiles with
  | .error err => .error err
  | .ok c =>
    match c.set "apikey" (PyVal.vstr "X") with
    | .error err => .error err
    | .ok c2 => c2.set "password" (PyVal.vstr "p")

/-- The state the C2 scenario reaches just before `save()`. -/
def aliceConfig : Config :=
  { _config := [("username", PyVal.vstr "alice"), ("apikey", PyVal.vstr "X"),
                ("password", PyVal.vstr "p")],
    config_file := none }

/-- C2: the save-then-load round trip is impossible because `save` always
raises before writing: with a cached `config_file` it reads the unassigned
local `config_file` (UnboundLocalError), and otherwise it dereferences the
never-assigned attribute `_username` (AttributeError).  The second and third
conjuncts run the claim's own scenario: building the store succeeds, and its
`save()` raises the AttributeError. -/
theorem C2_save_never_writes :
    (∀ (c : Config) (e : Env), ∃ err, (Config.save c e).1 = .error err) ∧
    aliceStore = .ok aliceConfig ∧
    (Config.save aliceConfig envNoFiles).1 =
      .error (.attrError "Config instance has no attribute \x27_username\x27") := by
  refine ⟨?_, ?_, ?_⟩
  · intro c e
    cases hc : c.config_file with
    | some p =>
      exact ⟨.unboundLocal "local variable \x27config_file\x27 referenced before assignment",
        by simp [Config.save, hc]⟩
    | none =>
      exact ⟨.attrError "Config instance has no attribute \x27_username\x27",
        by simp [Config.save, hc]⟩
  · rfl
  · rfl

end Filemail

namespace Pyfilemail

/-- Errors raised by the users module: `FMBaseError` with a message, and the
structured remote error raised by `hellraiser` (spec section 7) carrying the
machine-readable code and message. -/
inductive FMError where
  | base (msg : String)
  | remote (errorcode : Nat) (errormessage : String)
deriving DecidableEq, Repr

/-- The requests session cookie jar: string-keyed string cookies. -/
abbrev Cookies := List (String × String)

/-- Requests `cookies.get(key)`: the cookie value, or absent. -/
def cookiesGet : Cookies → String → Option String
  | [], _ => none
  | (k0, v) :: rest, k => if k0 = k then some v else cookiesGet rest k

/-- Requests `cookies[key] = value`: assigning a string stores the cookie;
assigning `None` removes it. -/
def cookiesSet (jar : Cookies) (k : String) (v : Option String) : Cookies :=
  match v with
  | none => jar.filter (fun kv => kv.1 != k)
  | some s => (k, s) :: jar.filter (fun kv => kv.1 != k)

/-- Python truthiness of a cookie lookup: `None` and the empty string are
falsy, any other string is truthy. -/
def pyTruthy : Option String → Bool
  | none => false
  | some s => !s.isEmpty

/-- Identity of the `from` side of a reconstructed transfer: the `User`
instance that issued the listing call, or a plain string identifier. -/
inductive Owner where
  | self
  | name (s : String)
deriving DecidableEq, Repr

/-- A `Transfer` handle.  The collaborator-owned pieces are reduced to the
fields the users module touches: the owner reference passed to the
constructor, the `transfer_info` dict updated from the response record, the
flag that `get_files()` was triggered, and the collaborator-computed
`is_complete` used by the pre-logout check. -/
structure Transfer where
  owner : Owner
  transfer_info : List (String × PyVal)
  files_fetched : Bool
  is_complete : Bool
deriving DecidableEq, Repr

/-- One outbound HTTP call: the route-table operation name (the `get_URL`
lookup key; the URL/method table is a collaborator) and the parameter dict. -/
structure Request where
  name : String
  params : List (String × PyVal)
deriving DecidableEq, Repr

/-- One record of a listing response: the `from` field plus the remaining
response fields. -/
structure TransferData where
  fromUser : String
  fields : List (String × PyVal)
deriving DecidableEq, Repr

/-- A contact dict as returned by the remote service: per the data model it
carries at least `contactid`, `name` and `email`. -/
structure Contact where
  contactid : PyVal
  name : PyVal
  email : String
deriving DecidableEq, Repr

/-- A parsed HTTP response at the transport boundary: status code, the
cookies the server sets (merged into the session jar by requests), the
per-operation body payloads, and the error body fields `hellraiser` reads. -/
structure Response where
  status_code : Nat
  set_cookies : List (String × String)
  transfers : List TransferData
  user : List (String × PyVal)
  contacts : List Contact
  contact : Contact
  errorcode : Nat
  errormessage : String
deriving DecidableEq, Repr

/-- The `User` object state: username, the session cookie jar, the JSON
config dict loaded by `load_config`, and the owned transfers list. -/
structure UserState where
  username : String
  cookies : Cookies
  config : List (String × PyVal)
  transfers : List Transfer
deriving DecidableEq, Repr

/-- Requests merges every cookie a response sets into the session jar. -/
def mergeCookies (jar : Cookies) (resp : List (String × String)) : Cookies :=
  resp.foldl (fun j kv => cookiesSet j kv.1 (some kv.2)) jar

/-- A cookie lookup as a request parameter value (`None` when absent). -/
def optToPy : Option String → PyVal
  | none => PyVal.vnone
  | some s => PyVal.vstr s

/-- `User.logged_in`: `self.session.cookies.get('logintoken') and True or
False` — true exactly when the cookie is present and non-empty. -/
def logged_in (st : UserState) : Bool :=
  match cookiesGet st.cookies "logintoken" with
  | none => false
  | some s => if s.isEmpty then false else true

/-- `User.is_anonymous`: `not self.session.cookies.get('logintoken')`. -/
def is_anonymous (st : UserState) : Bool :=
  !pyTruthy (cookiesGet st.cookies "logintoken")

/-- The `login_required` decorator: checks `logged_in` and raises
`FMBaseError` before the wrapped body can run or touch the network. -/
def login_required {α : Type}
    (f : UserState → (Request → Response) → Except FMError α × UserState × List Request) :
    UserState → (Request → Response) → Except FMError α × UserState × List Request :=
  fun st transport =>
    if logged_in st then f st transport
    else (.error (.base "Please login to use this method"), st, [])

/-- Modelled from the spec: `hellraiser` lives in the `errors` module, which
is not part of the sources here; per spec section 7 it raises a structured
remote error carrying the machine-readable code and message from the error
payload (either the response body or a synthesized local code). -/
def hellraiser (errorcode : Nat) (errormessage : String) : FMError :=
  FMError.remote errorcode errormessage

/-- `hellraiser` applied to a failed response: code and message come from the
response body. -/
def hellraiserRes (res : Response) : FMError :=
  hellraiser res.errorcode res.errormessage

/-- The authentication request `User.login` builds: apikey from the config
dict, the username, the password and `source = 'Desktop'`. -/
def loginRequest (st : UserState) (password : String) : Request :=
  { name := "login",
    params := [("apikey", dget st.config "apikey"),
               ("username", PyVal.vstr st.username),
               ("password", PyVal.vstr password),
               ("source", PyVal.vstr "Desktop")] }

/-- `User.login`: issues the authentication request; the response's cookies
(the server-set `logintoken` on a successful authentication) are merged into
the session jar by requests; status 200 returns `True`, anything else raises
via `hellraiser`. -/
def login (password : String) (st : UserState) (transport : Request → Response) :
    Except FMError Bool × UserState × List Request :=
  let req := loginRequest st password
  let res := transport req
  let st1 := { st with cookies := mergeCookies st.cookies res.set_cookies }
  if res.status_code = 200 then (.ok true, st1, [req])
  else (.error (hellraiserRes res), st1, [req])

/-- The password branch of `User.__init__`: `self.login(password)` followed,
only when login returned, by `self.session.cookies['source'] = 'Desktop'`. -/
def init_with_password (password : String) (st : UserState)
    (transport : Request → Response) :
    Except FMError Bool × UserState × List Request :=
  match login password st transport with
  | (.ok r, st1, trace) =>
    (.ok r, { st1 with cookies := cookiesSet st1.cookies "source" (some "Desktop") }, trace)
  | (.error e, st1, trace) => (.error e, st1, trace)

/-- `User._restore_transfers`: for each record, the `from` value is folded to
the calling `User` when it equals the current username and kept verbatim
otherwise; a `Transfer` is built in restore mode, its `transfer_info` updated
with the record and its file listing fetched; results keep response order.
The collaborator-owned completion logic is abstracted as `isCompleteOf`. -/
def restore_transfers (username : String)
    (isCompleteOf : List (String × PyVal) → Bool) :
    List TransferData → List Transfer
  | [] => []
  | d :: rest =>
    let user : Owner := if d.fromUser = username then Owner.self else Owner.name d.fromUser
    { owner := user,
      transfer_info := dset d.fields "from" (PyVal.vstr d.fromUser),
      files_fetched := true,
      is_complete := isCompleteOf d.fields } :: restore_transfers username isCompleteOf rest

/-- The `get_sent` request: apikey and logintoken from the session cookies
plus the expired/for-all flags. -/
def get_sent_request (st : UserState) (expired for_all : Bool) : Request :=
  { name := "get_sent",
    params := [("apikey", optToPy (cookiesGet st.cookies "apikey")),
               ("logintoken", optToPy (cookiesGet st.cookies "logintoken")),
               ("getexpired", PyVal.vbool expired),
               ("getforallusers", PyVal.vbool for_all)] }

/-- `User.get_sent` (login-guarded): one listing call; on 200 the transfers
are reconstructed, otherwise `hellraiser` raises from the response body. -/
def get_sent (expired for_all : Bool) (isCompleteOf : List (String × PyVal) → Bool) :
    UserState → (Request → Response) → Except FMError (List Transfer) × UserState × List Request :=
  login_required (fun st transport =>
    let req := get_sent_request st expired for_all
    let res := transport req
    let st1 := { st with cookies := mergeCookies st.cookies res.set_cookies }
    if res.status_code = 200 then
      (.ok (restore_transfers st.username isCompleteOf res.transfers), st1, [req])
    else (.error (hellraiserRes res), st1, [req]))

/-- The `user_get` request: apikey from the config dict plus the session
logintoken. -/
def user_get_request (st : UserState) : Request :=
  { name := "user_get",
    params := [("apikey", dget st.config "apikey"),
               ("logintoken", optToPy (cookiesGet st.cookies "logintoken"))] }

/-- `User.get_user_info` (login-guarded): on 200 returns the `user` payload,
merging it into the config dict when `save_to_config` is set. -/
def get_user_info (save_to_config : Bool) :
    UserState → (Request → Response) →
      Except FMError (List (String × PyVal)) × UserState × List Request :=
  login_required (fun st transport =>
    let req := user_get_request st
    let res := transport req
    let st1 := { st with cookies := mergeCookies st.cookies res.set_cookies }
    if res.status_code = 200 then
      let settings := res.user
      let st2 := if save_to_config then { st1 with config := dupdate st1.config settings }
                 else st1
      (.ok settings, st2, [req])
    else (.error (hellraiserRes res), st1, [req]))

/-- `User.update_user_info` (login-guarded): merges the keyword arguments
into the config dict when any are given, then sends the whole config dict as
the request parameters. -/
def update_user_info (kwargs : List (String × PyVal)) :
    UserState → (Request → Response) → Except FMError Bool × UserState × List Request :=
  login_required (fun st transport =>
    let st1 := if kwargs.isEmpty then st else { st with config := dupdate st.config kwargs }
    let req : Request := { name := "user_update", params := st1.config }
    let res := transport req
    let st2 := { st1 with cookies := mergeCookies st1.cookies res.set_cookies }
    if res.status_code = 200 then (.ok true, st2, [req])
    else (.error (hellraiserRes res), st2, [req]))

/-- `User.get_received_files` (login-guarded): a truthy age is validated to
the 0–90 day range and converted to a Unix timestamp (`timegm` of the
current UTC time minus that many days; the wall clock is the explicit
`now`, in whole seconds), then one listing call is made as for `get_sent`. -/
def get_received_files (age : Option Int) (for_all : Bool) (now : Int)
    (isCompleteOf : List (String × PyVal) → Bool) :
    UserState → (Request → Response) → Except FMError (List Transfer) × UserState × List Request :=
  login_required (fun st transport =>
    let check : Except FMError PyVal :=
      match age with
      | none => .ok PyVal.vnone
      | some a =>
        if a = 0 then .ok (PyVal.vint 0)
        else if a < 0 || a > 90 then .error (.base "Age must be <int> between 0-90")
        else .ok (PyVal.vint (now - a * 86400))
    match check with
    | .error e => (.error e, st, [])
    | .ok fromVal =>
      let req : Request :=
        { name := "received_get",
          params := [("apikey", dget st.config "apikey"),
                     ("logintoken", optToPy (cookiesGet st.cookies "logintoken")),
                     ("getForAllUsers", PyVal.vbool for_all),
                     ("from", fromVal)] }
      let res := transport req
      let st1 := { st with cookies := mergeCookies st.cookies res.set_cookies }
      if res.status_code = 200 then
        (.ok (restore_transfers st.username isCompleteOf res.transfers), st1, [req])
      else (.error (hellraiserRes res), st1, [req]))

/-- The `contacts_get` request: apikey from the config dict plus the session
logintoken; no other parameters. -/
def contacts_get_request (st : UserState) : Request :=
  { name := "contacts_get",
    params := [("apikey", dget st.config "apikey"),
               ("logintoken", optToPy (cookiesGet st.cookies "logintoken"))] }

/-- `User.get_contacts` (login-guarded): on 200 returns the `contacts`
payload. -/
def get_contacts :
    UserState → (Request → Response) → Except FMError (List Contact) × UserState × List Request :=
  login_required (fun st transport =>
    let req := contacts_get_request st
    let res := transport req
    let st1 := { st with cookies := mergeCookies st.cookies res.set_cookies }
    if res.status_code = 200 then (.ok res.contacts, st1, [req])
    else (.error (hellraiserRes res), st1, [req]))

/-- `User.get_contact` (login-guarded): fetches the full contact list and
scans it in order for the first exact email match; no match raises a local
`FMBaseError`. -/
def get_contact (email : String) :
    UserState → (Request → Response) → Except FMError Contact × UserState × List Request :=
  login_required (fun st transport =>
    match get_contacts st transport with
    | (.ok contacts, st1, trace) =>
      match contacts.find? (fun c => c.email == email) with
      | some c => (.ok c, st1, trace)
      | none =>
        (.error (.base ("No contact with email: \"" ++ email ++ "\" found.")), st1, trace)
    | (.error e, st1, trace) => (.error e, st1, trace))

/-- `User.update_contact` (login-guarded): sends contactid, name and email of
the given contact; 200 returns `True`. -/
def update_contact (contact : Contact) :
    UserState → (Request → Response) → Except FMError Bool × UserState × List Request :=
  login_required (fun st transport =>
    let req : Request :=
      { name := "contacts_update",
        params := [("apikey", dget st.config "apikey"),
                   ("logintoken", optToPy (cookiesGet st.cookies "logintoken")),
                   ("contactid", contact.contactid),
                   ("name", contact.name),
                   ("email", PyVal.vstr contact.email)] }
    let res := transport req
    let st1 := { st with cookies := mergeCookies st.cookies res.set_cookies }
    if res.status_code = 200 then (.ok true, st1, [req])
    else (.error (hellraiserRes res), st1, [req]))

/-- `User.add_contact` (login-guarded): sends name and email; 200 returns the
`contact` payload. -/
def add_contact (cname email : String) :
    UserState → (Request → Response) → Except FMError Contact × UserState × List Request :=
  login_required (fun st transport =>
    let req : Request :=
      { name := "contacts_add",
        params := [("apikey", dget st.config "apikey"),
                   ("logintoken", optToPy (cookiesGet st.cookies "logintoken")),
                   ("name", PyVal.vstr cname),
                   ("email", PyVal.vstr email)] }
    let res := transport req
    let st1 := { st with cookies := mergeCookies st.cookies res.set_cookies }
    if res.status_code = 200 then (.ok res.contact, st1, [req])
    else (.error (hellraiserRes res), st1, [req]))

/-- `User.delete_contact` (login-guarded): sends the contactid; 200 returns
`True`. -/
def delete_contact (contact : Contact) :
    UserState → (Request → Response) → Except FMError Bool × UserState × List Request :=
  login_required (fun st transport =>
    let req : Request :=
      { name := "contacts_delete",
        params := [("apikey", dget st.config "apikey"),
                   ("logintoken", optToPy (cookiesGet st.cookies "logintoken")),
                   ("contactid", contact.contactid)] }
    let res := transport req
    let st1 := { st with cookies := mergeCookies st.cookies res.set_cookies }
    if res.status_code = 200 then (.ok true, st1, [req])
    else (.error (hellraiserRes res), st1, [req]))

/-- `User.transfers_complete`: scans the owned transfers and raises the local
code 4003 via `hellraiser` at the first incomplete one. -/
def transfers_complete (transfers : List Transfer) : Except FMError Unit :=
  match transfers.find? (fun t => !t.is_complete) with
  | some _ => .error (hellraiser 4003 "You must complete transfer before logout.")
  | none => .ok ()

/-- `User.logout` (login-guarded): first the transfer-completion check, which
raises before any payload is built or network call made; then the logout
call; on 200 the logintoken cookie is set to `None` (removed), any other
status raises via `hellraiser`. -/
def logout :
    UserState → (Request → Response) → Except FMError Bool × UserState × List Request :=
  login_required (fun st transport =>
    match transfers_complete st.transfers with
    | .error e => (.error e, st, [])
    | .ok _ =>
      let req : Request :=
        { name := "logout",
          params := [("apikey", dget st.config "apikey"),
                     ("logintoken", optToPy (cookiesGet st.cookies "logintoken"))] }
      let res := transport req
      let st1 := { st with cookies := mergeCookies st.cookies res.set_cookies }
      if res.status_code = 200 then
        (.ok true, { st1 with cookies := cookiesSet st1.cookies "logintoken" none }, [req])
      else (.error (hellraiserRes res), st1, [req]))

theorem cookiesGet_filter_ne (jar : Cookies) (k0 k : String) (h : ¬k0 = k) :
    cookiesGet (jar.filter (fun kv => kv.1 != k0)) k = cookiesGet jar k := by
  induction jar with
  | nil => rfl
  | cons kv rest ih =>
    obtain ⟨k1, v1⟩ := kv
    by_cases h0 : k1 = k0
    · subst h0
      have h1 : ¬k1 = k := fun he => h (he ▸ rfl)
      simp [cookiesGet, List.filter_cons, h1, ih]
    · by_cases h1 : k1 = k
      · subst h1
        simp [cookiesGet, List.filter_cons, h0]
      · simp [cookiesGet, List.filter_cons, h0, h1, ih]

theorem cookiesGet_cookiesSet (jar : Cookies) (k0 k v : String) :
    cookiesGet (cookiesSet jar k0 (some v)) k =
      if k0 = k then some v else cookiesGet jar k := by
  by_cases h : k0 = k
  · subst h
    simp [cookiesSet, cookiesGet]
  · simp [cookiesSet, cookiesGet, h, cookiesGet_filter_ne jar k0 k h]

/-- The last value a response's cookie list assigns to key `k`, if any: the
value the merged jar ends up holding. -/
def lastCookie : List (String × String) → String → Option String
  | [], _ => none
  | (k0, v) :: rest, k =>
    match lastCookie rest k with
    | some w => some w
    | none => if k0 = k then some v else none

theorem cookiesGet_mergeCookies (resp : List (String × String)) (jar : Cookies)
    (k : String) :
    cookiesGet (mergeCookies jar resp) k =
      match lastCookie resp k with
      | some w => some w
      | none => cookiesGet jar k := by
  induction resp generalizing jar with
  | nil => rfl
  | cons kv rest ih =>
    obtain ⟨k0, v⟩ := kv
    have hstep : mergeCookies jar ((k0, v) :: rest) =
        mergeCookies (cookiesSet jar k0 (some v)) rest := rfl
    rw [hstep, ih]
    cases hl : lastCookie rest k with
    | some w => simp [lastCookie, hl]
    | none =>
      by_cases h0 : k0 = k <;> simp [lastCookie, hl, cookiesGet_cookiesSet, h0]

/-- C10: in every session state, `is_anonymous` is exactly the negation of
`logged_in`, whatever the logintoken cookie holds (absent, empty or
non-empty). -/
theorem C10_is_anonymous_negates_logged_in (st : UserState) :
    is_anonymous st = !logged_in st := by
  unfold is_anonymous logged_in pyTruthy
  cases cookiesGet st.cookies "logintoken" with
  | none => rfl
  | some s => by_cases h : s.isEmpty <;> simp [h]

/-- The result every guarded operation produces for an anonymous session:
the authentication-required `FMBaseError`, the unchanged state and an empty
request trace. -/
def authFail (α : Type) (st : UserState) : Except FMError α × UserState × List Request :=
  (.error (.base "Please login to use this method"), st, [])

/-- C1: with `logged_in` false, every guarded account-level operation fails
with the authentication-required error, issues zero network requests and
leaves the state (session cookies, config, transfers) unchanged. -/
theorem C1_login_guard (st : UserState) (transport : Request → Response)
    (expired for_all save_to_config : Bool) (kwargs : List (String × PyVal))
    (age : Option Int) (now : Int) (isCompleteOf : List (String × PyVal) → Bool)
    (email cname : String) (contact : Contact)
    (h : logged_in st = false) :
    get_sent expired for_all isCompleteOf st transport = authFail (List Transfer) st ∧
    get_received_files age for_all now isCompleteOf st transport =
      authFail (List Transfer) st ∧
    get_user_info save_to_config st transport = authFail (List (String × PyVal)) st ∧
    update_user_info kwargs st transport = authFail Bool st ∧
    get_contacts st transport = authFail (List Contact) st ∧
    get_contact email st transport = authFail Contact st ∧
    update_contact contact st transport = authFail Bool st ∧
    add_contact cname email st transport = authFail Contact st ∧
    delete_contact contact st transport = authFail Bool st ∧
    logout st transport = authFail Bool st := by
  refine ⟨?_, ?_, ?_, ?_, ?_, ?_, ?_, ?_, ?_, ?_⟩ <;>
    simp [get_sent, get_received_files, get_user_info, update_user_info, get_contacts,
          get_contact, update_contact, add_contact, delete_contact, logout,
          login_required, h, authFail]

/-- A placeholder contact for response fields. -/
def contact0 : Contact := { contactid := PyVal.vnone, name := PyVal.vnone, email := "" }

/-- A response with empty payloads, used where the transport is never meant
to be reached. -/
def trivialResponse : Response :=
  { status_code := 200, set_cookies := [], transfers := [], user := [],
    contacts := [], contact := contact0, errorcode := 0, errormessage := "" }

/-- A transport that answers every request with the trivial response. -/
def trivialTransport : Request → Response := fun _ => trivialResponse

/-- An anonymous session, as `__init__` builds without a password: source
cookie `web`, logintoken removed. -/
def stAnon : UserState :=
  { username := "alice", cookies := [("apikey", "KEY"), ("source", "web")],
    config := [("apikey", PyVal.vstr "KEY")], transfers := [] }

/-- Witness for C1: a concrete anonymous session; every guarded operation
returns the authentication failure with an empty trace. -/
theorem C1_witness :
    logged_in stAnon = false ∧
    get_sent false false (fun _ => true) stAnon trivialTransport =
      authFail (List Transfer) stAnon ∧
    get_received_files (some 5) false 1000000 (fun _ => true) stAnon trivialTransport =
      authFail (List Transfer) stAnon ∧
    get_user_info true stAnon trivialTransport = authFail (List (String × PyVal)) stAnon ∧
    update_user_info [] stAnon trivialTransport = authFail Bool stAnon ∧
    get_contacts stAnon trivialTransport = authFail (List Contact) stAnon ∧
    get_contact "bob@example.com" stAnon trivialTransport = authFail Contact stAnon ∧
    update_contact contact0 stAnon trivialTransport = authFail Bool stAnon ∧
    add_contact "Bob" "bob@example.com" stAnon trivialTransport = authFail Contact stAnon ∧
    delete_contact contact0 stAnon trivialTransport = authFail Bool stAnon ∧
    logout stAnon trivialTransport = authFail Bool stAnon :=
  have h := C1_login_guard stAnon trivialTransport false false true [] (some 5) 1000000
    (fun _ => true) "bob@example.com" "Bob" contact0 (by decide)
  ⟨by decide, h.1, h.2.1, h.2.2.1, h.2.2.2.1, h.2.2.2.2.1, h.2.2.2.2.2.1,
   h.2.2.2.2.2.2.1, h.2.2.2.2.2.2.2.1, h.2.2.2.2.2.2.2.2.1, h.2.2.2.2.2.2.2.2.2⟩

/-- C3: an authenticated session with at least one incomplete owned transfer
fails `logout` with the local transfer-incomplete code 4003 before any
network call (empty trace) and leaves the state unchanged, so `logged_in`
stays true and the logintoken is not cleared. -/
theorem C3_logout_incomplete (st : UserState) (transport : Request → Response)
    (hlog : logged_in st = true)
    (hinc : st.transfers.any (fun t => !t.is_complete) = true) :
    logout st transport =
      (.error (FMError.remote 4003 "You must complete transfer before logout."), st, []) := by
  have hfind : (st.transfers.find? (fun t => !t.is_complete)).isSome = true := by
    rw [List.find?_isSome]
    exact List.any_eq_true.mp hinc
  cases hf : st.transfers.find? (fun t => !t.is_complete) with
  | none => rw [hf] at hfind; simp at hfind
  | some t =>
    simp [logout, login_required, hlog, transfers_complete, hf, hellraiser]

/-- An authenticated session owning one incomplete transfer. -/
def stIncomplete : UserState :=
  { username := "alice",
    cookies := [("apikey", "KEY"), ("logintoken", "tok123"), ("source", "Desktop")],
    config := [("apikey", PyVal.vstr "KEY")],
    transfers := [{ owner := Owner.self, transfer_info := [], files_fetched := false,
                    is_complete := false }] }

/-- Witness for C3 at the concrete incomplete-transfer session. -/
theorem C3_witness :
    logout stIncomplete trivialTransport =
      (.error (FMError.remote 4003 "You must complete transfer before logout."),
       stIncomplete, []) :=
  C3_logout_incomplete stIncomplete trivialTransport (by decide) (by decide)

/-- C7: reconstruction preserves the record order and count, and each
resulting handle's owner is the calling `User` itself exactly when the
record's `from` field equals the current username, and otherwise the `from`
string kept verbatim. -/
theorem C7_restore_identity_folding (username : String)
    (isCompleteOf : List (String × PyVal) → Bool) (records : List TransferData) :
    (restore_transfers username isCompleteOf records).length = records.length ∧
    ∀ (i : Nat) (h1 : i < (restore_transfers username isCompleteOf records).length)
      (h2 : i < records.length),
      ((restore_transfers username isCompleteOf records).get ⟨i, h1⟩).owner =
        (if (records.get ⟨i, h2⟩).fromUser = username then Owner.self
         else Owner.name (records.get ⟨i, h2⟩).fromUser) := by
  constructor
  · induction records with
    | nil => rfl
    | cons d rest ih => simpa [restore_transfers] using ih
  · induction records with
    | nil => exact fun i h1 h2 => absurd h2 (Nat.not_lt_zero i)
    | cons d rest ih =>
      intro i h1 h2
      cases i with
      | zero => rfl
      | succ n => exact ih n (Nat.lt_of_succ_lt_succ h1) (Nat.lt_of_succ_lt_succ h2)

/-- Listing records for the C7 witness: one from the calling user, one from
someone else. -/
def recsW : List TransferData :=
  [{ fromUser := "alice", fields := [("id", PyVal.vint 1)] },
   { fromUser := "bob", fields := [("id", PyVal.vint 2)] }]

/-- Witness for C7: the record from `alice` folds to the calling user, the
record from `bob` keeps the plain identifier, in response order. -/
theorem C7_witness :
    (restore_transfers "alice" (fun _ => true) recsW).length = 2 ∧
    ((restore_transfers "alice" (fun _ => true) recsW).get ⟨0, by decide⟩).owner =
      Owner.self ∧
    ((restore_transfers "alice" (fun _ => true) recsW).get ⟨1, by decide⟩).owner =
      Owner.name "bob" :=
  ⟨(C7_restore_identity_folding "alice" (fun _ => true) recsW).1,
   ((C7_restore_identity_folding "alice" (fun _ => true) recsW).2 0 (by decide)
     (by decide)).trans (by decide),
   ((C7_restore_identity_folding "alice" (fun _ => true) recsW).2 1 (by decide)
     (by decide)).trans (by decide)⟩

/-- C4: `login` issues exactly one authentication request carrying apikey,
username, password and source.  On a 200 status it returns `True`, and with
the server-set logintoken cookie merged into the session jar the session
becomes authenticated; the password branch of `__init__` then marks
`source = Desktop`.  On any other status it raises the structured remote
error built from the response body, and a failure response that sets no
cookies leaves the session state unchanged (still anonymous). -/
theorem C4_login_transitions (st : UserState) (transport : Request → Response)
    (password tok : String) :
    (login password st transport).2.2 = [loginRequest st password] ∧
    ((transport (loginRequest st password)).status_code = 200 →
      (login password st transport).1 = .ok true ∧
      (lastCookie (transport (loginRequest st password)).set_cookies "logintoken" =
          some tok →
        tok.isEmpty = false →
        logged_in (login password st transport).2.1 = true ∧
        logged_in (init_with_password password st transport).2.1 = true ∧
        cookiesGet (init_with_password password st transport).2.1.cookies "source" =
          some "Desktop")) ∧
    ((transport (loginRequest st password)).status_code ≠ 200 →
      (login password st transport).1 =
        .error (FMError.remote (transport (loginRequest st password)).errorcode
          (transport (loginRequest st password)).errormessage) ∧
      ((transport (loginRequest st password)).set_cookies = [] →
        (login password st transport).2.1 = st)) := by
  by_cases h200 : (transport (loginRequest st password)).status_code = 200
  · have hlogin : login password st transport =
        (.ok true,
         { st with cookies := (mergeCookies st.cookies
             (transport (loginRequest st password)).set_cookies) },
         [loginRequest st password]) := by
      simp [login, h200]
    refine ⟨by rw [hlogin], fun _ => ⟨by rw [hlogin], fun hlast hne => ?_⟩,
      fun hne => absurd h200 hne⟩
    have hctoken : cookiesGet (mergeCookies st.cookies
        (transport (loginRequest st password)).set_cookies) "logintoken" = some tok := by
      rw [cookiesGet_mergeCookies, hlast]
    have hinit : init_with_password password st transport =
        (.ok true,
         { st with cookies := (cookiesSet (mergeCookies st.cookies
             (transport (loginRequest st password)).set_cookies) "source" (some "Desktop")) },
         [loginRequest st password]) := by
      simp [init_with_password, hlogin]
    have hsrc : ¬("source" = "logintoken") := by decide
    refine ⟨?_, ?_, ?_⟩
    · rw [hlogin]
      unfold logged_in
      dsimp only
      rw [hctoken]
      simp [hne]
    · rw [hinit]
      unfold logged_in
      dsimp only
      rw [cookiesGet_cookiesSet, if_neg hsrc, hctoken]
      simp [hne]
    · rw [hinit]
      dsimp only
      rw [cookiesGet_cookiesSet, if_pos rfl]
  · have hlogin : login password st transport =
        (.error (FMError.remote (transport (loginRequest st password)).errorcode
            (transport (loginRequest st password)).errormessage),
         { st with cookies := (mergeCookies st.cookies
             (transport (loginRequest st password)).set_cookies) },
         [loginRequest st password]) := by
      simp [login, h200, hellraiserRes, hellraiser]
    refine ⟨by rw [hlogin], fun hc => absurd hc h200,
      fun _ => ⟨by rw [hlogin], fun hempty => ?_⟩⟩
    rw [hlogin]
    dsimp only
    rw [hempty]
    rfl

/-- The response of a successful authentication: status 200 and the
server-set logintoken cookie. -/
def loginOkResponse : Response :=
  { status_code := 200, set_cookies := [("logintoken", "abc123")], transfers := [],
    user := [], contacts := [], contact := contact0, errorcode := 0, errormessage := "" }

/-- A transport that authenticates every login attempt. -/
def loginOkTransport : Request → Response := fun _ => loginOkResponse

/-- The response of a rejected authentication: status 403 with the error
body code 1001, setting no cookies. -/
def loginFailResponse : Response :=
  { status_code := 403, set_cookies := [], transfers := [], user := [], contacts := [],
    contact := contact0, errorcode := 1001, errormessage := "bad credentials" }

/-- A transport that rejects every login attempt. -/
def loginFailTransport : Request → Response := fun _ => loginFailResponse

/-- Witness for C4: a successful login authenticates the session and marks
the Desktop source; a rejected login raises the remote error carrying
code 1001 and leaves the anonymous state untouched. -/
theorem C4_witness :
    logged_in (init_with_password "secret" stAnon loginOkTransport).2.1 = true ∧
    cookiesGet (init_with_password "secret" stAnon loginOkTransport).2.1.cookies
      "source" = some "Desktop" ∧
    (login "wrong" stAnon loginFailTransport).1 =
      .error (FMError.remote 1001 "bad credentials") ∧
    (login "wrong" stAnon loginFailTransport).2.1 = stAnon :=
  have hok := ((C4_login_transitions stAnon loginOkTransport "secret" "abc123").2.1
    (by decide)).2 (by decide) (by decide)
  have hfail := (C4_login_transitions stAnon loginFailTransport "wrong" "x").2.2
    (by decide)
  ⟨hok.2.1, hok.2.2, hfail.1, hfail.2 (by decide)⟩

/-- C9: `get_contact` fetches the contact list with a single `contacts_get`
call (whose parameters carry only apikey and logintoken — no server-side
search) and returns the first contact in list order whose email equals the
argument exactly; with no match it raises the client-side `FMBaseError`,
which is distinct from every structured remote-call error. -/
theorem C9_get_contact_scan (st : UserState) (transport : Request → Response)
    (email : String)
    (hlog : logged_in st = true)
    (h200 : (transport (contacts_get_request st)).status_code = 200) :
    (get_contact email st transport).2.2 = [contacts_get_request st] ∧
    (get_contact email st transport).1 =
      (match (transport (contacts_get_request st)).contacts.find?
          (fun c => c.email == email) with
       | some c => .ok c
       | none =>
         .error (FMError.base ("No contact with email: \"" ++ email ++ "\" found."))) ∧
    (∀ code msg,
      FMError.base ("No contact with email: \"" ++ email ++ "\" found.") ≠
        FMError.remote code msg) := by
  have hcontacts : get_contacts st transport =
      (.ok (transport (contacts_get_request st)).contacts,
       { st with cookies := (mergeCookies st.cookies
           (transport (contacts_get_request st)).set_cookies) },
       [contacts_get_request st]) := by
    simp [get_contacts, login_required, hlog, h200]
  refine ⟨?_, ?_, fun code msg h => FMError.noConfusion h⟩
  · simp only [get_contact, login_required, hlog, if_true]
    rw [hcontacts]
    cases hf : (transport (contacts_get_request st)).contacts.find?
        (fun c => c.email == email) with
    | some c => simp [hf]
    | none => simp [hf]
  · simp only [get_contact, login_required, hlog, if_true]
    rw [hcontacts]
    cases hf : (transport (contacts_get_request st)).contacts.find?
        (fun c => c.email == email) with
    | some c => simp [hf]
    | none => simp [hf]

/-- A contact returned by the remote service. -/
def contactBob : Contact :=
  { contactid := PyVal.vint 1, name := PyVal.vstr "Bob", email := "bob@example.com" }

/-- Another contact returned by the remote service. -/
def contactCarol : Contact :=
  { contactid := PyVal.vint 2, name := PyVal.vstr "Carol", email := "carol@example.com" }

/-- The contact-list response for the C9 witness. -/
def contactsResponse : Response :=
  { status_code := 200, set_cookies := [], transfers := [],
    user := [], contacts := [contactBob, contactCarol], contact := contact0,
    errorcode := 0, errormessage := "" }

/-- A transport answering with the two-contact list. -/
def contactsTransport : Request → Response := fun _ => contactsResponse

/-- An authenticated session with no owned transfers. -/
def stAuth : UserState :=
  { username := "alice",
    cookies := [("apikey", "KEY"), ("logintoken", "tok123"), ("source", "Desktop")],
    config := [("apikey", PyVal.vstr "KEY")], transfers := [] }

/-- Witness for C9: the exact match is found in list order, a missing email
raises the client-side not-found error, and exactly one `contacts_get`
request is issued. -/
theorem C9_witness :
    (get_contact "carol@example.com" stAuth contactsTransport).1 = .ok contactCarol ∧
    (get_contact "dave@example.com" stAuth contactsTransport).1 =
      .error (FMError.base ("No contact with email: \"" ++ "dave@example.com" ++
        "\" found.")) ∧
    (get_contact "carol@example.com" stAuth contactsTransport).2.2 =
      [contacts_get_request stAuth] :=
  ⟨((C9_get_contact_scan stAuth contactsTransport "carol@example.com" (by decide)
      (by decide)).2.1).trans (by decide),
   ((C9_get_contact_scan stAuth contactsTransport "dave@example.com" (by decide)
      (by decide)).2.1).trans (by decide),
   (C9_get_contact_scan stAuth contactsTransport "carol@example.com" (by decide)
      (by decide)).1⟩

end Pyfilemail
